import Mathlib

/-!
Shallow embedding of the preseed composition core of this repository
(src/maasserver/compose_preseed.py) together with proofs about it.

Text is modelled as List Char; Python dictionaries whose key set is fixed are
modelled as structures, and the one dictionary with dynamic keys (the map of
additional package sources) as an association list with Python dict update
semantics. External collaborators (yaml.safe_dump, urlencode, absolute_reverse
and the OS delegate get_preseed_data) are passed in as an explicit record of
functions, mirroring the design note of the spec that ambient lookups become a
read-only context argument.
-/

/-- Characters treated as whitespace by the Python str.strip and str.isspace
methods, restricted to the ASCII range exercised by the code. -/
def isPySpace (c : Char) : Bool :=
  c = ' ' || c = '\t' || c = '\n' || c = '\r' || c = '\x0b' || c = '\x0c'

/-- Python str.strip: remove leading and trailing whitespace. -/
def pyStrip (s : List Char) : List Char :=
  ((s.dropWhile isPySpace).reverse.dropWhile isPySpace).reverse

/-- Python str.isspace: true when the string is nonempty and every character
is whitespace. -/
def pyIsSpace (s : List Char) : Bool :=
  !s.isEmpty && s.all isPySpace

/-- Per-character action of the Python replace of a space by an underscore,
as used by make_clean_repo_name. -/
def replaceSpaceChar (c : Char) : Char :=
  if c = ' ' then '_' else c

/-- Python str.lower on one character, written out on the ASCII upper-case
letters, the fragment exercised by the code. -/
def pyLowerChar (c : Char) : Char :=
  if c = 'A' then 'a' else if c = 'B' then 'b' else if c = 'C' then 'c'
  else if c = 'D' then 'd' else if c = 'E' then 'e' else if c = 'F' then 'f'
  else if c = 'G' then 'g' else if c = 'H' then 'h' else if c = 'I' then 'i'
  else if c = 'J' then 'j' else if c = 'K' then 'k' else if c = 'L' then 'l'
  else if c = 'M' then 'm' else if c = 'N' then 'n' else if c = 'O' then 'o'
  else if c = 'P' then 'p' else if c = 'Q' then 'q' else if c = 'R' then 'r'
  else if c = 'S' then 's' else if c = 'T' then 't' else if c = 'U' then 'u'
  else if c = 'V' then 'v' else if c = 'W' then 'w' else if c = 'X' then 'x'
  else if c = 'Y' then 'y' else if c = 'Z' then 'z' else c

/-- Character set deleted by make_clean_repo_name through str.translate: the
characters of the Python literal are the apostrophe, the exclamation mark, the
at sign, the hash, the dollar sign and the four bracket characters. -/
def specialChars : List Char :=
  ['\'', '!', '@', '#', '$', '[', ']', '\x7b', '\x7d']

/-- Decimal digit character for a value below ten, as produced by Python
string formatting of an integer; values of ten or more never occur. -/
def digitChar (d : Nat) : Char :=
  Nat.digitChar d

/-- Inverse of digitChar on the ten decimal digit characters. -/
def digitVal (c : Char) : Nat :=
  if c = '0' then 0 else if c = '1' then 1 else if c = '2' then 2
  else if c = '3' then 3 else if c = '4' then 4 else if c = '5' then 5
  else if c = '6' then 6 else if c = '7' then 7 else if c = '8' then 8
  else if c = '9' then 9 else 10

/-- Fuel-driven digit expansion: with fuel at least n, produces the decimal
digits of n in the usual order, and the empty list for zero. -/
def natReprAux : Nat → Nat → List Char
  | 0, _ => []
  | fuel + 1, n => if n = 0 then [] else natReprAux fuel (n / 10) ++ [digitChar (n % 10)]

/-- Decimal representation of a natural number, as produced by Python %s
formatting of a repository id. -/
def natRepr (n : Nat) : List Char :=
  if n = 0 then ['0'] else natReprAux n n

/-- Authentication material for a machine: the OAuth consumer key, token key
and token secret read by the composition code from the token object. -/
structure Token where
  consumer_key : List Char
  key : List Char
  secret : List Char
deriving Repr, DecidableEq

/-- PackageRepository row, restricted to the fields compose_preseed.py reads. -/
structure Repo where
  name : List Char
  id : Nat
  url : List Char
  key : Option (List Char)
  components : List (List Char)
  distributions : List (List Char)
deriving Repr, DecidableEq

/-- Default archive returned by PackageRepository.objects.get_default_archive. -/
structure Archive where
  url : List Char
  key : Option (List Char)
  disabled_pockets : List (List Char)
deriving Repr, DecidableEq

/-- Modelled from the spec: machine lifecycle status enumeration (NODE_STATUS
of maasserver.enum, whose module is not under src/). Only the two statuses the
composition code compares against are distinguished; every other enumeration
value is represented by OTHER with its numeric code. -/
inductive NODE_STATUS where
  | DISK_ERASING
  | ENTERING_RESCUE_MODE
  | OTHER (code : Nat)
deriving Repr, DecidableEq

/-- Modelled from the spec: request-kind enumeration (PRESEED_TYPE of
maasserver.enum, whose module is not under src/): commissioning, curtin
installation, and the OS-driven default. -/
inductive PRESEED_TYPE where
  | COMMISSIONING
  | CURTIN
  | OS_DEFAULT
deriving Repr, DecidableEq

/-- Machine fields read by the composition code. rack_host models
get_maas_facing_server_host applied to the boot rack controller of the node,
rack_url models the url attribute of that controller, and arch models the
first component split_arch()[0] of the architecture string. -/
structure Node where
  arch : List Char
  distro_series : List Char
  status : NODE_STATUS
  system_id : List Char
  rack_host : List Char
  rack_url : List Char
deriving Repr, DecidableEq

/-- Read-only snapshot of the ambient stores consulted by compose_preseed.py:
the Config table and the PackageRepository manager. -/
structure Env where
  enable_http_proxy : Bool
  http_proxy : Option (List Char)
  default_archive : List Char → Archive
  additional_repositories : List Char → List Repo
  main_archive_url : List Char
  ports_archive_url : List Char

/-- Embedding of get_apt_proxy_for_node: with the proxy flag enabled, the
configured value is returned when it is a nonempty string that is not all
whitespace, and otherwise a URL on port 8000 of the rack host of the node is
synthesized; with the flag disabled there is no proxy. -/
def get_apt_proxy_for_node (env : Env) (node : Node) : Option (List Char) :=
  if env.enable_http_proxy then
    match env.http_proxy with
    | some http_proxy =>
        if http_proxy.length > 0 && !(pyIsSpace http_proxy) then
          some http_proxy
        else
          some ("http://".data ++ node.rack_host ++ ":8000/".data)
    | none => some ("http://".data ++ node.rack_host ++ ":8000/".data)
  else
    none

/-- Embedding of make_clean_repo_name: delete the special characters from the
repository name, append an underscore and the numeric id, then strip the
result, replace spaces by underscores and lower-case it. -/
def make_clean_repo_name (repo : Repo) : List Char :=
  ((pyStrip
      ((repo.name.filter (fun c => !(specialChars.contains c))) ++ '_' :: natRepr repo.id)
    ).map replaceSpaceChar).map pyLowerChar

/-- Name-cleaning pipeline of make_clean_repo_name applied to the display name
alone, without the id suffix: delete the special characters, strip, replace
spaces by underscores, lower-case. -/
def sanitizeName (s : List Char) : List Char :=
  ((pyStrip (s.filter (fun c => !(specialChars.contains c)))).map replaceSpaceChar).map
    pyLowerChar

/-- Python truthiness of an optional string: None and the empty string are
falsy, so only a nonempty string passes an if test. -/
def optTruthy : Option (List Char) → Option (List Char)
  | some (c :: cs) => some (c :: cs)
  | _ => none

/-- Entry of the sources map of the apt configuration: the default archive
entry carries only a signing key, repository entries carry a source line and
optionally a signing key. -/
structure SourceEntry where
  key : Option (List Char)
  source : Option (List Char)
deriving Repr, DecidableEq

/-- Python dict assignment on an association list: replace the value in place
when the key is present, append at the end otherwise. -/
def dictSet (m : List (List Char × SourceEntry)) (k : List Char) (v : SourceEntry) :
    List (List Char × SourceEntry) :=
  if m.any (fun kv => kv.1 == k) then
    m.map (fun kv => if kv.1 == k then (k, v) else kv)
  else
    m ++ [(k, v)]

/-- Python dict lookup on an association list. -/
def dictGet (m : List (List Char × SourceEntry)) (k : List Char) : Option SourceEntry :=
  (m.find? (fun kv => kv.1 == k)).map (fun kv => kv.2)

/-- Python substring containment test, as in the in operator on str. -/
def listContains (pat s : List Char) : Bool :=
  decide (pat <:+: s)

/-- Component string computed for one additional repository inside the loop
of get_archive_config: the fixed word main when no component is listed, else
the component names each followed by a space, with the result stripped. -/
def componentsOf (repo : Repo) : List Char :=
  pyStrip
    (if repo.components.isEmpty then "main".data
     else repo.components.foldl (fun acc comp => acc ++ comp ++ [' ']) [])

/-- Source line or lines computed for one additional repository inside the
loop of get_archive_config: PPA shorthand URLs are kept verbatim, URLs on the
PPA web host become a single deb line on the distro series of the node, and
any other URL becomes one newline-terminated deb line per listed distribution,
or a single deb line on the distro series of the node when no distribution is
listed. -/
def repoSourceUrl (node : Node) (repo : Repo) : List Char :=
  if ("ppa:".data).isPrefixOf repo.url then
    repo.url
  else if listContains ("ppa.launchpad.net".data) repo.url then
    "deb ".data ++ repo.url ++ [' '] ++ node.distro_series ++ " main".data
  else
    let components := componentsOf repo
    if repo.distributions.isEmpty then
      "deb ".data ++ repo.url ++ [' '] ++ node.distro_series ++ [' '] ++ components
    else
      repo.distributions.foldl
        (fun acc dist =>
          acc ++ "deb ".data ++ repo.url ++ [' '] ++ dist ++ [' '] ++ components ++ ['\n'])
        []

/-- Mirror list entry of the primary and security lists of the apt block. -/
structure MirrorSpec where
  arches : List (List Char)
  uri : List Char
deriving Repr, DecidableEq

/-- Contents of the apt key of the archives dictionary built by
get_archive_config; an empty sources list models the absent sources key, and
the none values of disable_suites and proxy model those absent keys. -/
structure AptConfig where
  preserve_sources_list : Bool
  primary : List MirrorSpec
  security : List MirrorSpec
  disable_suites : Option (List (List Char))
  proxy : Option (List Char)
  sources : List (List Char × SourceEntry)
deriving Repr, DecidableEq

/-- Embedding of get_archive_config: the default archive of the primary
architecture of the node, the optional disabled pockets, proxy and signing
key, and one sources entry per additional repository keyed by its sanitized
name. -/
def get_archive_config (env : Env) (node : Node) (preserve_sources : Bool) : AptConfig :=
  let arch := node.arch
  let archive := env.default_archive arch
  let repositories := env.additional_repositories arch
  let apt_proxy := get_apt_proxy_for_node env node
  let initSources : List (List Char × SourceEntry) :=
    match optTruthy archive.key with
    | some k => [("archive_key".data, ⟨some k, none⟩)]
    | none => []
  { preserve_sources_list := preserve_sources
    primary := [⟨["default".data], archive.url⟩]
    security := [⟨["default".data], archive.url⟩]
    disable_suites :=
      if archive.disabled_pockets.isEmpty then none else some archive.disabled_pockets
    proxy := optTruthy apt_proxy
    sources := repositories.foldl
      (fun m repo =>
        dictSet m (make_clean_repo_name repo)
          ⟨optTruthy repo.key, some (repoSourceUrl node repo)⟩)
      initSources }

/-- Search URLs of one package mirror entry. -/
structure MirrorSearch where
  primary : List (List Char)
  security : List (List Char)
deriving Repr, DecidableEq

/-- Failsafe URLs of one package mirror entry. -/
structure Failsafe where
  primary : List Char
  security : List Char
deriving Repr, DecidableEq

/-- One entry of the package_mirrors list of the system info block. -/
structure PackageMirror where
  arches : List (List Char)
  search : MirrorSearch
  failsafe : Failsafe
deriving Repr, DecidableEq

/-- Embedding of get_system_info: the fixed-shape package mirror description
derived from the configured main and ports archive URLs, with the fixed
upstream failsafe URLs. -/
def get_system_info (env : Env) : List PackageMirror :=
  [ ⟨["i386".data, "amd64".data],
      ⟨[env.main_archive_url], [env.main_archive_url]⟩,
      ⟨"http://archive.ubuntu.com/ubuntu".data, "http://security.ubuntu.com/ubuntu".data⟩⟩,
    ⟨["default".data],
      ⟨[env.ports_archive_url], [env.ports_archive_url]⟩,
      ⟨"http://ports.ubuntu.com/ubuntu-ports".data,
        "http://ports.ubuntu.com/ubuntu-ports".data⟩⟩ ]

/-- Default port for RSYSLOG. -/
def RSYSLOG_PORT : Nat := 514

/-- Embedding of get_rsyslog_host_port: rack host of the node and the fixed
rsyslog port. -/
def get_rsyslog_host_port (node : Node) : List Char :=
  node.rack_host ++ [':'] ++ natRepr RSYSLOG_PORT

/-- Reporting block written under the maas key: a webhook endpoint together
with the three credential fields. -/
structure WebhookReporting where
  type : List Char
  endpoint : List Char
  consumer_key : List Char
  token_key : List Char
  token_secret : List Char
deriving Repr, DecidableEq

/-- Configuration dictionary built by compose_cloud_init_preseed and fed
through yaml.safe_dump into the local cloud config line. -/
structure CloudInitConfig where
  manage_etc_hosts : Bool
  apt_preserve_sources_list : Bool
  manual_cache_clean : Bool
  reporting : WebhookReporting
  system_info : List PackageMirror
  apt_proxy : Option (List Char)
  apt : AptConfig
deriving Repr, DecidableEq

/-- MAAS datasource block of the ephemeral cloud config. -/
structure MAASDatasource where
  metadata_url : List Char
  consumer_key : List Char
  token_key : List Char
  token_secret : List Char
deriving Repr, DecidableEq

/-- Power state block attached when a power off is requested. -/
structure PowerState where
  delay : List Char
  mode : List Char
  timeout : Nat
  condition : Option (List Char)
deriving Repr, DecidableEq

/-- Configuration dictionary built by the helper behind the commissioning and
curtin composers; a none power_state models the absent power_state key. -/
structure CloudConfig where
  datasource : MAASDatasource
  reporting : WebhookReporting
  rsyslog_maas : List Char
  system_info : List PackageMirror
  apt_proxy : Option (List Char)
  apt : AptConfig
  power_state : Option PowerState
deriving Repr, DecidableEq

/-- External collaborators of compose_preseed.py, passed as a read-only record
of functions: absolute_reverse for the three named endpoints, yaml.safe_dump
for the two document shapes, and urlencode for the credential mapping. -/
structure Deps where
  metadata_url : List Char → List Char
  curtin_metadata_url : List Char → List Char
  metadata_status_url : List Char → List Char → List Char
  dump_cloud_init : CloudInitConfig → List Char
  dump_cloud_config : CloudConfig → List Char
  urlencode_credentials : Token → List Char

/-- Per-character action of the str.replace of a backslash by a doubled
backslash; since the pattern is a single character the replace acts
character-wise. -/
def escapeBackslashChar (c : Char) : List Char :=
  if c = '\\' then ['\\', '\\'] else [c]

/-- Per-character action of the str.replace of a newline by the two-character
sequence backslash n. -/
def escapeNewlineChar (c : Char) : List Char :=
  if c = '\n' then ['\\', 'n'] else [c]

/-- First replace of the debconf escape: every backslash doubled. -/
def replaceBackslash (s : List Char) : List Char :=
  (s.map escapeBackslashChar).flatten

/-- Second replace of the debconf escape: every newline replaced by the
two-character sequence backslash n. -/
def replaceNewline (s : List Char) : List Char :=
  (s.map escapeNewlineChar).flatten

/-- Debconf escaping of compose_cloud_init_preseed: double the backslashes,
then replace the newlines. -/
def debconfEscape (s : List Char) : List Char :=
  replaceNewline (replaceBackslash s)

/-- Debconf selection line with the exact spacing of the Python format string
used by compose_cloud_init_preseed. -/
def preseedLine (item_name item_type item_value : List Char) : List Char :=
  "cloud-init   cloud-init/".data ++ item_name ++ "  ".data ++ item_type ++ [' ']
    ++ item_value

/-- Configuration structure assembled by compose_cloud_init_preseed before
serialization. -/
def cloud_init_config (deps : Deps) (env : Env) (node : Node) (token : Token)
    (base_url : List Char) : CloudInitConfig :=
  { manage_etc_hosts := false
    apt_preserve_sources_list := true
    manual_cache_clean := true
    reporting :=
      { type := "webhook".data
        endpoint := deps.metadata_status_url node.system_id base_url
        consumer_key := token.consumer_key
        token_key := token.key
        token_secret := token.secret }
    system_info := get_system_info env
    apt_proxy := optTruthy (get_apt_proxy_for_node env node)
    apt := get_archive_config env node false }

/-- Embedding of compose_cloud_init_preseed: the debconf-line document for a
node in any state but commissioning. -/
def compose_cloud_init_preseed (deps : Deps) (env : Env) (node : Node) (token : Token)
    (base_url : List Char) : List Char :=
  let credentials := deps.urlencode_credentials token
  let local_config_yaml := deps.dump_cloud_init (cloud_init_config deps env node token base_url)
  let local_config := debconfEscape local_config_yaml
  List.intercalate ['\n']
    [ preseedLine "datasources".data "multiselect".data "MAAS".data,
      preseedLine "maas-metadata-url".data "string".data (deps.metadata_url base_url),
      preseedLine "maas-metadata-credentials".data "string".data credentials,
      preseedLine "local-cloud-config".data "string".data local_config ]

/-- Configuration dictionary assembled by the helper behind the commissioning
and curtin composers before serialization. -/
def cloud_config (deps : Deps) (env : Env) (node : Node) (token : Token)
    (metadata_url base_url : List Char) (poweroff : Bool) (poweroff_timeout : Nat)
    (poweroff_condition : Option (List Char)) : CloudConfig :=
  { datasource := ⟨metadata_url, token.consumer_key, token.key, token.secret⟩
    reporting :=
      { type := "webhook".data
        endpoint := deps.metadata_status_url node.system_id base_url
        consumer_key := token.consumer_key
        token_key := token.key
        token_secret := token.secret }
    rsyslog_maas := get_rsyslog_host_port node
    system_info := get_system_info env
    apt_proxy := optTruthy (get_apt_proxy_for_node env node)
    apt := get_archive_config env node false
    power_state :=
      if poweroff then
        some ⟨"now".data, "poweroff".data, poweroff_timeout, poweroff_condition⟩
      else none }

/-- Embedding of the helper named with a leading underscore in the source
(the shared cloud-config composer): the marker line followed by the serialized
cloud config. -/
def compose_cloud_init_document (deps : Deps) (env : Env) (node : Node) (token : Token)
    (metadata_url base_url : List Char) (poweroff : Bool) (poweroff_timeout : Nat)
    (poweroff_condition : Option (List Char)) : List Char :=
  "#cloud-config\n".data ++
    deps.dump_cloud_config
      (cloud_config deps env node token metadata_url base_url poweroff poweroff_timeout
        poweroff_condition)

/-- Embedding of compose_commissioning_preseed: power off unless the node is
entering rescue mode, with a one-week timeout while disk erasing and one hour
otherwise, always passing the fixed sentinel-file guard condition. The integer
timeouts are the values of the timedelta computations of the source. -/
def compose_commissioning_preseed (deps : Deps) (env : Env) (node : Node) (token : Token)
    (base_url : List Char) : List Char :=
  let metadata_url := deps.metadata_url base_url
  let poweroff := node.status != NODE_STATUS.ENTERING_RESCUE_MODE
  let poweroff_timeout := if node.status = NODE_STATUS.DISK_ERASING then 604800 else 3600
  compose_cloud_init_document deps env node token metadata_url base_url poweroff
    poweroff_timeout (some ("test ! -e /tmp/block-poweroff".data))

/-- Embedding of compose_curtin_preseed: the shared cloud-config composer on
the curtin metadata URL with the default power parameters, so no power off. -/
def compose_curtin_preseed (deps : Deps) (env : Env) (node : Node) (token : Token)
    (base_url : List Char) : List Char :=
  compose_cloud_init_document deps env node token (deps.curtin_metadata_url base_url)
    base_url false 3600 none

/-- Outcome of the external OS-specific delegate get_preseed_data: a payload,
or one of the three raised conditions the caller distinguishes. -/
inductive DelegateResult where
  | ok (payload : List Char)
  | notImplemented
  | noSuchOperatingSystem
  | noConnectionsAvailable
deriving Repr, DecidableEq

/-- Failures compose_preseed lets escape to its caller. -/
inductive ComposeFailure where
  | noSuchOperatingSystem
  | noConnectionsAvailable
deriving Repr, DecidableEq

/-- Embedding of the metadata URL helper of the dispatcher. -/
def get_metadata_url (deps : Deps) (preseed_type : PRESEED_TYPE) (base_url : List Char) :
    List Char :=
  if preseed_type = PRESEED_TYPE.CURTIN then deps.curtin_metadata_url base_url
  else deps.metadata_url base_url

/-- Embedding of compose_preseed: commissioning requests are answered directly
by the commissioning composer; every other request first consults the OS
delegate, whose outcome is supplied as a function of the preseed type and the
metadata URL, recovers from a not-implemented outcome through the curtin or
debconf fallback, and propagates the two other raised conditions. -/
def compose_preseed (deps : Deps) (env : Env)
    (delegate : PRESEED_TYPE → List Char → DelegateResult)
    (preseed_type : PRESEED_TYPE) (node : Node) (token : Token) :
    Except ComposeFailure (List Char) :=
  let base_url := node.rack_url
  if preseed_type = PRESEED_TYPE.COMMISSIONING then
    .ok (compose_commissioning_preseed deps env node token base_url)
  else
    let metadata_url := get_metadata_url deps preseed_type base_url
    match delegate preseed_type metadata_url with
    | .ok payload => .ok payload
    | .noSuchOperatingSystem => .error .noSuchOperatingSystem
    | .noConnectionsAvailable => .error .noConnectionsAvailable
    | .notImplemented =>
        if preseed_type = PRESEED_TYPE.CURTIN then
          .ok (compose_curtin_preseed deps env node token base_url)
        else
          .ok (compose_cloud_init_preseed deps env node token base_url)

/-- Cloud config assembled for a commissioning request, with the power
parameters computed by compose_commissioning_preseed. -/
def commissioning_config (deps : Deps) (env : Env) (node : Node) (token : Token)
    (base_url : List Char) : CloudConfig :=
  cloud_config deps env node token (deps.metadata_url base_url) base_url
    (node.status != NODE_STATUS.ENTERING_RESCUE_MODE)
    (if node.status = NODE_STATUS.DISK_ERASING then 604800 else 3600)
    (some ("test ! -e /tmp/block-poweroff".data))

/-- Cloud config assembled for the curtin fallback, with the default power
parameters of the shared composer. -/
def curtin_config (deps : Deps) (env : Env) (node : Node) (token : Token)
    (base_url : List Char) : CloudConfig :=
  cloud_config deps env node token (deps.curtin_metadata_url base_url) base_url
    false 3600 none

/-- Decoder of the decimal representation, used to show natRepr injective. -/
def decodeRepr (l : List Char) : Nat :=
  Nat.ofDigits 10 (l.reverse.map digitVal)

/-- Stem of a sanitized repository name: the image of everything up to and
including the separating underscore, a function of the display name alone. -/
def cleanedStem (name : List Char) : List Char :=
  (((name.filter (fun c => !(specialChars.contains c)) ++ ['_']).dropWhile
      isPySpace).map replaceSpaceChar).map pyLowerChar

/-- Sample archive used by witness statements. -/
def sampleArchive : Archive :=
  ⟨"http://archive.example/ubuntu".data, some ("KEY".data), []⟩

/-- Sample generic repository used by witness statements. -/
def sampleRepo : Repo :=
  ⟨"Extra Repo".data, 7, "http://mirror.example/debian".data, none, [], []⟩

/-- Sample generic repository with two distributions, used against C6. -/
def sampleRepoTwoDists : Repo :=
  ⟨"Two".data, 9, "http://x".data, none, [], ["a".data, "b".data]⟩

/-- Sample environment used by witness statements. -/
def sampleEnv : Env :=
  { enable_http_proxy := true
    http_proxy := some ("http://proxy.example/".data)
    default_archive := fun _ => sampleArchive
    additional_repositories := fun _ => [sampleRepo]
    main_archive_url := "http://archive.ubuntu.com/ubuntu".data
    ports_archive_url := "http://ports.ubuntu.com/ubuntu-ports".data }

/-- Sample machine used by witness statements. -/
def sampleNode : Node :=
  ⟨"amd64".data, "xenial".data, .OTHER 6, "abc123".data, "rack.example".data,
    "http://rack.example:5240/".data⟩

/-- Sample machine in the disk erasing state. -/
def sampleNodeErasing : Node :=
  ⟨"amd64".data, "xenial".data, .DISK_ERASING, "abc123".data, "rack.example".data,
    "http://rack.example:5240/".data⟩

/-- Sample machine entering rescue mode. -/
def sampleNodeRescue : Node :=
  ⟨"amd64".data, "xenial".data, .ENTERING_RESCUE_MODE, "abc123".data, "rack.example".data,
    "http://rack.example:5240/".data⟩

/-- Sample credentials used by witness statements. -/
def sampleToken : Token :=
  ⟨"ck".data, "tk".data, "ts".data⟩

/-- Sample record of external collaborators used by witness statements. -/
def sampleDeps : Deps :=
  { metadata_url := fun base => base ++ "MAAS/metadata/".data
    curtin_metadata_url := fun base => base ++ "MAAS/metadata/curtin".data
    metadata_status_url := fun sysid base => base ++ "MAAS/metadata/status/".data ++ sysid
    dump_cloud_init := fun _ => "yamlA".data
    dump_cloud_config := fun _ => "yamlB".data
    urlencode_credentials := fun t =>
      "oauth_consumer_key=".data ++ t.consumer_key ++ "&oauth_token_key=".data ++ t.key
        ++ "&oauth_token_secret=".data ++ t.secret }

example : natRepr 0 = ['0'] := by decide
example : natRepr 1507 = "1507".data := by decide
example : make_clean_repo_name ⟨"My Repo!".data, 5, "u".data, none, [], []⟩ = "my_repo_5".data := by
  decide
example : sanitizeName "  My [Repo]! ".data = "my_repo".data := by decide
example : get_apt_proxy_for_node ⟨true, some "  ".data, fun _ => ⟨[], none, []⟩, fun _ => [],
    [], []⟩ ⟨[], [], .OTHER 4, [], "host".data, []⟩ = some "http://host:8000/".data := by decide

/-! Support lemmas about characters and decimal representations. -/

lemma map_fix {f : Char → Char} {l : List Char} (h : ∀ c ∈ l, f c = c) : l.map f = l := by
  rw [List.map_congr_left h]; simp

lemma digitChar_spec {d : Nat} (h : d < 10) :
    replaceSpaceChar (digitChar d) = digitChar d ∧
    pyLowerChar (digitChar d) = digitChar d ∧
    isPySpace (digitChar d) = false ∧
    (digitChar d).isDigit = true ∧
    digitVal (digitChar d) = d := by
  interval_cases d <;> decide

lemma natReprAux_mem : ∀ fuel n, ∀ c ∈ natReprAux fuel n, ∃ d, d < 10 ∧ c = digitChar d := by
  intro fuel
  induction fuel with
  | zero => intro n c hc; simp [natReprAux] at hc
  | succ fuel ih =>
      intro n c hc
      by_cases hn : n = 0
      · simp [natReprAux, hn] at hc
      · simp only [natReprAux, if_neg hn, List.mem_append, List.mem_singleton] at hc
        rcases hc with hc | hc
        · exact ih _ c hc
        · exact ⟨n % 10, Nat.mod_lt _ (by norm_num), hc⟩

lemma natRepr_mem (n : Nat) : ∀ c ∈ natRepr n, ∃ d, d < 10 ∧ c = digitChar d := by
  intro c hc
  by_cases hn : n = 0
  · subst hn
    simp [natRepr] at hc
    exact ⟨0, by norm_num, by rw [hc]; rfl⟩
  · rw [natRepr, if_neg hn] at hc
    exact natReprAux_mem n n c hc

lemma natRepr_ne_nil (n : Nat) : natRepr n ≠ [] := by
  by_cases hn : n = 0
  · subst hn; simp [natRepr]
  · rw [natRepr, if_neg hn]
    obtain ⟨m, rfl⟩ : ∃ m, n = m + 1 := ⟨n - 1, by omega⟩
    simp [natReprAux, hn]

lemma natReprAux_eq_digits : ∀ fuel n, n ≤ fuel →
    natReprAux fuel n = ((Nat.digits 10 n).map Nat.digitChar).reverse := by
  intro fuel
  induction fuel with
  | zero =>
      intro n hn
      interval_cases n
      simp [natReprAux]
  | succ fuel ih =>
      intro n hn
      by_cases h0 : n = 0
      · subst h0; simp [natReprAux]
      · obtain ⟨m, rfl⟩ : ∃ m, n = m + 1 := ⟨n - 1, by omega⟩
        have hdiv : (m + 1) / 10 ≤ fuel := by
          have : (m + 1) / 10 < m + 1 := Nat.div_lt_self (by omega) (by norm_num)
          omega
        have hd : Nat.digits 10 (m + 1) =
            (m + 1) % 10 :: Nat.digits 10 ((m + 1) / 10) :=
          Nat.digits_add_two_add_one 8 m
        rw [natReprAux, if_neg h0, ih _ hdiv, hd]
        simp [digitChar]

lemma natRepr_eq_digits {n : Nat} (hn : n ≠ 0) :
    natRepr n = ((Nat.digits 10 n).map Nat.digitChar).reverse := by
  rw [natRepr, if_neg hn]
  exact natReprAux_eq_digits n n le_rfl

lemma decodeRepr_natRepr (n : Nat) : decodeRepr (natRepr n) = n := by
  by_cases hn : n = 0
  · subst hn; decide
  · rw [natRepr_eq_digits hn, decodeRepr, List.reverse_reverse, List.map_map]
    have h : ∀ d ∈ Nat.digits 10 n, (digitVal ∘ Nat.digitChar) d = d := by
      intro d hd
      have hlt : d < 10 := Nat.digits_lt_base (by norm_num) hd
      exact (digitChar_spec hlt).2.2.2.2
    rw [List.map_congr_left h]
    simpa using Nat.ofDigits_digits 10 n

lemma natRepr_injective : Function.Injective natRepr := by
  intro a b h
  have h2 := congrArg decodeRepr h
  rwa [decodeRepr_natRepr, decodeRepr_natRepr] at h2

/-! Support lemmas about stripping and the sanitized-name structure. -/

lemma dropWhile_append_ne_nil {p : Char → Bool} (l : List Char) (c : Char)
    (hc : p c = false) : (l ++ [c]).dropWhile p ≠ [] := by
  intro h
  rw [List.dropWhile_eq_nil_iff] at h
  have h2 := h c (by simp)
  rw [hc] at h2
  exact Bool.false_ne_true h2

lemma dropWhile_append_singleton {p : Char → Bool} (l : List Char) (c : Char)
    (hc : p c = false) :
    (l ++ [c]).dropWhile p =
      if (l.dropWhile p).isEmpty then [c] else l.dropWhile p ++ [c] := by
  rw [List.dropWhile_append]
  by_cases h : (l.dropWhile p).isEmpty <;> simp [h, List.dropWhile_cons, hc]

lemma pyStrip_append_right (p d : List Char) (hne : d ≠ [])
    (hd : ∀ c ∈ d, isPySpace c = false) :
    pyStrip (p ++ '_' :: d) = (p ++ ['_']).dropWhile isPySpace ++ d := by
  rw [List.append_cons p '_' d, pyStrip, List.dropWhile_append]
  have hX : ¬ (((p ++ ['_']).dropWhile isPySpace).isEmpty = true) := by
    simpa [List.isEmpty_iff] using dropWhile_append_ne_nil p '_' (by decide)
  rw [if_neg hX, List.reverse_append]
  obtain ⟨c, t, hct⟩ : ∃ c t, d.reverse = c :: t := by
    cases hrev : d.reverse with
    | nil => exact absurd (by simpa using hrev) hne
    | cons c t => exact ⟨c, t, rfl⟩
  have hcd : c ∈ d := by
    rw [← List.mem_reverse, hct]; simp
  rw [hct, List.cons_append, List.dropWhile_cons_of_neg (by simp [hd c hcd]),
    ← List.cons_append, ← hct, List.reverse_append, List.reverse_reverse,
    List.reverse_reverse]

lemma cleanedStem_shape (name : List Char) : ∃ q, cleanedStem name = q ++ ['_'] := by
  rw [cleanedStem, dropWhile_append_singleton _ '_' (by decide)]
  by_cases h :
      ((name.filter (fun c => !(specialChars.contains c))).dropWhile isPySpace).isEmpty
  · rw [if_pos h]
    exact ⟨[], by decide⟩
  · rw [if_neg h]
    refine ⟨(((name.filter (fun c => !(specialChars.contains c))).dropWhile
        isPySpace).map replaceSpaceChar).map pyLowerChar, ?_⟩
    simp [List.map_append, (by decide : pyLowerChar (replaceSpaceChar '_') = '_')]

lemma make_clean_eq_stem (repo : Repo) :
    make_clean_repo_name repo = cleanedStem repo.name ++ natRepr repo.id := by
  rw [make_clean_repo_name]
  have hns : ∀ c ∈ natRepr repo.id, isPySpace c = false := by
    intro c hc
    obtain ⟨d, hd, rfl⟩ := natRepr_mem repo.id c hc
    exact (digitChar_spec hd).2.2.1
  rw [pyStrip_append_right _ _ (natRepr_ne_nil repo.id) hns, List.map_append,
    List.map_append]
  congr 1
  have h1 : (natRepr repo.id).map replaceSpaceChar = natRepr repo.id :=
    map_fix (fun c hc => by
      obtain ⟨d, hd, rfl⟩ := natRepr_mem repo.id c hc
      exact (digitChar_spec hd).1)
  rw [h1]
  exact map_fix (fun c hc => by
    obtain ⟨d, hd, rfl⟩ := natRepr_mem repo.id c hc
    exact (digitChar_spec hd).2.1)

/-- Claim C7: repositories sharing a display name but with different numeric ids
receive different sanitized names. -/
theorem make_clean_repo_name_injective (r₁ r₂ : Repo)
    (hname : r₁.name = r₂.name) (hid : r₁.id ≠ r₂.id) :
    make_clean_repo_name r₁ ≠ make_clean_repo_name r₂ := by
  intro h
  rw [make_clean_eq_stem, make_clean_eq_stem, hname] at h
  exact hid (natRepr_injective (List.append_cancel_left h))

/-- Witness for C7 at two concrete repositories sharing a display name. -/
theorem make_clean_repo_name_injective_witness :
    make_clean_repo_name ⟨"Mirror".data, 1, "u".data, none, [], []⟩ ≠
      make_clean_repo_name ⟨"Mirror".data, 2, "u".data, none, [], []⟩ :=
  make_clean_repo_name_injective _ _ rfl (by decide)

/-! Support lemmas for the sources map of get_archive_config. -/

lemma make_clean_last_digit (repo : Repo) :
    ∃ c, (make_clean_repo_name repo).getLast? = some c ∧ c.isDigit = true := by
  rw [make_clean_eq_stem,
    List.getLast?_append_of_ne_nil _ (natRepr_ne_nil repo.id)]
  cases hlast : (natRepr repo.id).getLast? with
  | none => exact absurd (List.getLast?_eq_none_iff.mp hlast) (natRepr_ne_nil repo.id)
  | some c =>
      refine ⟨c, rfl, ?_⟩
      have hx : c ∈ (natRepr repo.id).getLast? := by rw [hlast]; rfl
      obtain ⟨hne, hcz⟩ := List.mem_getLast?_eq_getLast hx
      have hmem : c ∈ natRepr repo.id := hcz ▸ List.getLast_mem hne
      obtain ⟨d, hd, rfl⟩ := natRepr_mem repo.id c hmem
      exact (digitChar_spec hd).2.2.2.1

lemma make_clean_ne_archive_key (repo : Repo) :
    make_clean_repo_name repo ≠ "archive_key".data := by
  intro h
  obtain ⟨c, hc, hdig⟩ := make_clean_last_digit repo
  rw [h, (by decide : ("archive_key".data).getLast? = some 'y')] at hc
  rw [(Option.some.inj hc).symm] at hdig
  exact absurd hdig (by decide)

lemma find?_map_set (m : List (List Char × SourceEntry)) (k a : List Char)
    (v : SourceEntry) (h : k ≠ a) :
    (m.map (fun kv => if kv.1 == k then (k, v) else kv)).find? (fun kv => kv.1 == a) =
      m.find? (fun kv => kv.1 == a) := by
  induction m with
  | nil => rfl
  | cons kv t ih =>
      rw [List.map_cons]
      by_cases hk : kv.1 = k
      · rw [if_pos (by simpa using hk)]
        have h1 : ((k == a) : Bool) = false := beq_eq_false_iff_ne.mpr h
        have h2 : ((kv.1 == a) : Bool) = false := by
          rw [hk]
          exact beq_eq_false_iff_ne.mpr h
        rw [List.find?_cons, List.find?_cons]
        simp only [h1, h2, cond_false]
        exact ih
      · rw [if_neg (by simpa using hk)]
        rw [List.find?_cons, List.find?_cons]
        cases hval : ((kv.1 == a) : Bool)
        · simp only [cond_false]
          exact ih
        · simp only [cond_true]

lemma dictGet_dictSet_ne (m : List (List Char × SourceEntry)) (k a : List Char)
    (v : SourceEntry) (h : k ≠ a) : dictGet (dictSet m k v) a = dictGet m a := by
  rw [dictSet]
  by_cases hmem : m.any (fun kv => kv.1 == k)
  · rw [if_pos hmem, dictGet, dictGet, find?_map_set m k a v h]
  · rw [if_neg hmem, dictGet, dictGet, List.find?_append]
    cases hf : m.find? (fun kv => kv.1 == a) with
    | some x => rfl
    | none =>
        have : (((k, v).1 == a) : Bool) = false := beq_eq_false_iff_ne.mpr h
        simp [List.find?, this]

lemma sources_foldl_get (node : Node) (repos : List Repo) :
    ∀ init, dictGet (repos.foldl
        (fun m repo => dictSet m (make_clean_repo_name repo)
          ⟨optTruthy repo.key, some (repoSourceUrl node repo)⟩) init)
        "archive_key".data =
      dictGet init "archive_key".data := by
  induction repos with
  | nil => intro init; rfl
  | cons r t ih =>
      intro init
      rw [List.foldl_cons, ih]
      exact dictGet_dictSet_ne _ _ _ _ (make_clean_ne_archive_key r)

/-- Claim C10: every additional-source key ends in an underscore followed by the
decimal id of its repository, hence never equals the reserved archive_key, so
the signing-key entry of the default archive survives the addition of every
additional repository. -/
theorem archive_key_preserved (env : Env) (node : Node) (preserve : Bool)
    (k : List Char) (hkey : optTruthy (env.default_archive node.arch).key = some k) :
    (∀ repo : Repo, ∃ stem, make_clean_repo_name repo = stem ++ '_' :: natRepr repo.id ∧
      make_clean_repo_name repo ≠ "archive_key".data) ∧
    dictGet (get_archive_config env node preserve).sources "archive_key".data =
      some ⟨some k, none⟩ := by
  constructor
  · intro repo
    obtain ⟨q, hq⟩ := cleanedStem_shape repo.name
    refine ⟨q, ?_, make_clean_ne_archive_key repo⟩
    rw [make_clean_eq_stem, hq]
    simp
  · rw [get_archive_config]
    simp only
    rw [sources_foldl_get, hkey, dictGet]
    simp [List.find?]

/-- Witness for C10 at the sample environment with a configured signing key. -/
theorem archive_key_preserved_witness :
    dictGet (get_archive_config sampleEnv sampleNode false).sources "archive_key".data =
      some ⟨some ("KEY".data), none⟩ :=
  (archive_key_preserved sampleEnv sampleNode false ("KEY".data) (by decide)).2

/-! Support lemmas for the idempotence and deletion analysis of the
name-cleaning pipeline. -/

set_option maxHeartbeats 1600000 in
lemma pyLowerChar_cases (c : Char) :
    pyLowerChar c = c ∨ pyLowerChar c ∈ "abcdefghijklmnopqrstuvwxyz".data := by
  by_cases h : c ∈ ['A', 'B', 'C', 'D', 'E', 'F', 'G', 'H', 'I', 'J', 'K', 'L', 'M',
      'N', 'O', 'P', 'Q', 'R', 'S', 'T', 'U', 'V', 'W', 'X', 'Y', 'Z']
  · right
    fin_cases h <;> decide
  · left
    unfold pyLowerChar
    rw [if_neg (fun he => h (by rw [he]; decide)),
      if_neg (fun he => h (by rw [he]; decide)),
      if_neg (fun he => h (by rw [he]; decide)),
      if_neg (fun he => h (by rw [he]; decide)),
      if_neg (fun he => h (by rw [he]; decide)),
      if_neg (fun he => h (by rw [he]; decide)),
      if_neg (fun he => h (by rw [he]; decide)),
      if_neg (fun he => h (by rw [he]; decide)),
      if_neg (fun he => h (by rw [he]; decide)),
      if_neg (fun he => h (by rw [he]; decide)),
      if_neg (fun he => h (by rw [he]; decide)),
      if_neg (fun he => h (by rw [he]; decide)),
      if_neg (fun he => h (by rw [he]; decide)),
      if_neg (fun he => h (by rw [he]; decide)),
      if_neg (fun he => h (by rw [he]; decide)),
      if_neg (fun he => h (by rw [he]; decide)),
      if_neg (fun he => h (by rw [he]; decide)),
      if_neg (fun he => h (by rw [he]; decide)),
      if_neg (fun he => h (by rw [he]; decide)),
      if_neg (fun he => h (by rw [he]; decide)),
      if_neg (fun he => h (by rw [he]; decide)),
      if_neg (fun he => h (by rw [he]; decide)),
      if_neg (fun he => h (by rw [he]; decide)),
      if_neg (fun he => h (by rw [he]; decide)),
      if_neg (fun he => h (by rw [he]; decide)),
      if_neg (fun he => h (by rw [he]; decide))]

lemma lowercase_facts : ∀ d ∈ "abcdefghijklmnopqrstuvwxyz".data,
    specialChars.contains d = false ∧ isPySpace d = false ∧ pyLowerChar d = d ∧
      d ≠ ' ' := by decide

lemma pyLowerChar_not_special {c : Char} (h : specialChars.contains c = false) :
    specialChars.contains (pyLowerChar c) = false := by
  rcases pyLowerChar_cases c with hc | hc
  · rw [hc]; exact h
  · exact (lowercase_facts _ hc).1

lemma pyLowerChar_not_space {c : Char} (h : isPySpace c = false) :
    isPySpace (pyLowerChar c) = false := by
  rcases pyLowerChar_cases c with hc | hc
  · rw [hc]; exact h
  · exact (lowercase_facts _ hc).2.1

lemma pyLowerChar_ne_space {c : Char} (h : c ≠ ' ') : pyLowerChar c ≠ ' ' := by
  rcases pyLowerChar_cases c with hc | hc
  · rw [hc]; exact h
  · exact (lowercase_facts _ hc).2.2.2

lemma pyLowerChar_idem (c : Char) : pyLowerChar (pyLowerChar c) = pyLowerChar c := by
  rcases pyLowerChar_cases c with hc | hc
  · rw [hc]; exact hc
  · exact (lowercase_facts _ hc).2.2.1

lemma replaceSpaceChar_ne_space (c : Char) : replaceSpaceChar c ≠ ' ' := by
  rw [replaceSpaceChar]
  split_ifs with h
  · decide
  · exact h

lemma replaceSpaceChar_of_not_space {c : Char} (h : isPySpace c = false) :
    replaceSpaceChar c = c := by
  have hne : c ≠ ' ' := by
    intro he
    rw [he] at h
    exact absurd h (by decide)
  rw [replaceSpaceChar, if_neg hne]

lemma replaceSpaceChar_not_special {c : Char} (h : specialChars.contains c = false) :
    specialChars.contains (replaceSpaceChar c) = false := by
  rw [replaceSpaceChar]
  split_ifs
  · decide
  · exact h

lemma head_dropWhile_not {p : Char → Bool} :
    ∀ (l : List Char) {c : Char}, (l.dropWhile p).head? = some c → p c = false := by
  intro l
  induction l with
  | nil => intro c h; simp [List.dropWhile] at h
  | cons a t ih =>
      intro c h
      rw [List.dropWhile_cons] at h
      by_cases hp : p a
      · rw [if_pos hp] at h
        exact ih h
      · rw [if_neg hp] at h
        have hac : a = c := by simpa using h
        simp only [Bool.not_eq_true] at hp
        rw [← hac]
        exact hp

lemma mem_pyStrip {l : List Char} {c : Char} (h : c ∈ pyStrip l) : c ∈ l := by
  rw [pyStrip, List.mem_reverse] at h
  have h2 := (List.dropWhile_sublist isPySpace).subset h
  rw [List.mem_reverse] at h2
  exact (List.dropWhile_sublist isPySpace).subset h2

lemma lstrip_id {l : List Char} (h : ∀ c, l.head? = some c → isPySpace c = false) :
    l.dropWhile isPySpace = l := by
  cases l with
  | nil => rfl
  | cons a t => rw [List.dropWhile_cons, if_neg (by simp [h a rfl])]

lemma pyStrip_id {l : List Char}
    (hh : ∀ c, l.head? = some c → isPySpace c = false)
    (hl : ∀ c, l.getLast? = some c → isPySpace c = false) :
    pyStrip l = l := by
  rw [pyStrip, lstrip_id hh,
    lstrip_id (fun c hc => hl c (by rwa [← List.head?_reverse]))]
  exact List.reverse_reverse l

lemma pyStrip_last {v : List Char} {c : Char} (h : (pyStrip v).getLast? = some c) :
    isPySpace c = false := by
  rw [pyStrip, List.getLast?_reverse] at h
  exact head_dropWhile_not _ h

lemma pyStrip_head {v : List Char} {c : Char} (h : (pyStrip v).head? = some c) :
    isPySpace c = false := by
  rw [pyStrip, List.head?_reverse] at h
  have hne : (v.dropWhile isPySpace).reverse.dropWhile isPySpace ≠ [] := by
    intro hnil
    rw [hnil] at h
    exact Option.noConfusion h
  have hsuf : List.IsSuffix ((v.dropWhile isPySpace).reverse.dropWhile isPySpace)
      ((v.dropWhile isPySpace).reverse) := List.dropWhile_suffix isPySpace
  obtain ⟨a, ha⟩ := hsuf
  have h2 : ((v.dropWhile isPySpace).reverse).getLast? = some c := by
    rw [← ha, List.getLast?_append_of_ne_nil a hne]
    exact h
  rw [List.getLast?_reverse] at h2
  exact head_dropWhile_not _ h2

lemma sanitizeName_chars {s : List Char} {x : Char} (hx : x ∈ sanitizeName s) :
    specialChars.contains x = false ∧ replaceSpaceChar x = x ∧ pyLowerChar x = x := by
  rw [sanitizeName] at hx
  obtain ⟨y, hy, rfl⟩ := List.mem_map.mp hx
  obtain ⟨c₀, hc₀, rfl⟩ := List.mem_map.mp hy
  have hP : specialChars.contains c₀ = false := by
    have hm := mem_pyStrip hc₀
    rw [List.mem_filter] at hm
    simpa using hm.2
  refine ⟨pyLowerChar_not_special (replaceSpaceChar_not_special hP), ?_,
    pyLowerChar_idem _⟩
  have hne : pyLowerChar (replaceSpaceChar c₀) ≠ ' ' :=
    pyLowerChar_ne_space (replaceSpaceChar_ne_space c₀)
  rw [replaceSpaceChar, if_neg hne]

lemma sanitizeName_strip (s : List Char) : pyStrip (sanitizeName s) = sanitizeName s := by
  apply pyStrip_id
  · intro c hc
    rw [sanitizeName, List.head?_map, List.head?_map] at hc
    cases hu : (pyStrip (s.filter (fun c => !(specialChars.contains c)))).head? with
    | none => rw [hu] at hc; simp at hc
    | some c₀ =>
        rw [hu] at hc
        have hcc : pyLowerChar (replaceSpaceChar c₀) = c := by simpa using hc
        have h0 : isPySpace c₀ = false := pyStrip_head hu
        rw [← hcc]
        exact pyLowerChar_not_space (by rw [replaceSpaceChar_of_not_space h0]; exact h0)
  · intro c hc
    rw [sanitizeName, List.getLast?_map, List.getLast?_map] at hc
    cases hu : (pyStrip (s.filter (fun c => !(specialChars.contains c)))).getLast? with
    | none => rw [hu] at hc; simp at hc
    | some c₀ =>
        rw [hu] at hc
        have hcc : pyLowerChar (replaceSpaceChar c₀) = c := by simpa using hc
        have h0 : isPySpace c₀ = false := pyStrip_last hu
        rw [← hcc]
        exact pyLowerChar_not_space (by rw [replaceSpaceChar_of_not_space h0]; exact h0)

lemma sanitizeName_idem (s : List Char) :
    sanitizeName (sanitizeName s) = sanitizeName s := by
  have hfilter : (sanitizeName s).filter (fun c => !(specialChars.contains c)) =
      sanitizeName s := by
    apply List.filter_eq_self.mpr
    intro a ha
    simpa using (sanitizeName_chars ha).1
  rw [sanitizeName, hfilter, sanitizeName_strip]
  have h1 : (sanitizeName s).map replaceSpaceChar = sanitizeName s :=
    map_fix (fun c hc => (sanitizeName_chars hc).2.1)
  rw [h1]
  exact map_fix (fun c hc => (sanitizeName_chars hc).2.2)

lemma sanitizeName_fusion (s : List Char) :
    sanitizeName s = (pyStrip (s.filter (fun c => !(specialChars.contains c)))).map
      (fun c => pyLowerChar (replaceSpaceChar c)) := by
  rw [sanitizeName, List.map_map]
  rfl

lemma sanitizeName_keeps (s : List Char)
    (hspec : ∀ c ∈ s, specialChars.contains c = false)
    (hstrip : pyStrip s = s) :
    sanitizeName s = s.map (fun c => pyLowerChar (replaceSpaceChar c)) := by
  rw [sanitizeName_fusion,
    List.filter_eq_self.mpr (fun a ha => by simpa using hspec a ha), hstrip]

/-- Claim C8 as amended: the name-cleaning pipeline of make_clean_repo_name is
idempotent, and the characters it deletes are exactly the fixed punctuation
set anywhere in the name together with whitespace at the two ends via the
final strip; a name free of the punctuation set with no boundary whitespace
loses no character, its characters are only mapped in place, spaces becoming
underscores and upper-case letters lower-case. -/
theorem sanitizeName_idempotent_and_deletions :
    (∀ s, sanitizeName (sanitizeName s) = sanitizeName s) ∧
    (∀ s, sanitizeName s =
      (pyStrip (s.filter (fun c => !(specialChars.contains c)))).map
        (fun c => pyLowerChar (replaceSpaceChar c))) ∧
    (∀ s, (∀ c ∈ s, specialChars.contains c = false) → pyStrip s = s →
      sanitizeName s = s.map (fun c => pyLowerChar (replaceSpaceChar c))) :=
  ⟨sanitizeName_idem, sanitizeName_fusion, sanitizeName_keeps⟩

/-- Witness for C8 at a concrete already-clean name. -/
theorem sanitizeName_idempotent_witness :
    sanitizeName ("mirror one".data) =
      ("mirror one".data).map (fun c => pyLowerChar (replaceSpaceChar c)) :=
  sanitizeName_idempotent_and_deletions.2.2 ("mirror one".data) (by decide) (by decide)

/-- Counterexample to claim C8 as stated: a name containing no character of the fixed punctuation
set still loses a character, its leading space, so the characters removed by
the sanitization are not limited to the punctuation set. -/
theorem sanitizeName_removes_other_chars :
    (∀ c ∈ (" a".data), specialChars.contains c = false) ∧
    sanitizeName " a".data = "a".data ∧
    (sanitizeName " a".data).length < (" a".data).length ∧
    make_clean_repo_name ⟨" a".data, 3, "u".data, none, [], []⟩ = "a_3".data := by
  exact ⟨by decide, by decide, by decide, by decide⟩

/-! Claim theorems about the composers and the dispatcher. -/

/-- Claim C1: compose_preseed dispatches on the request kind: a commissioning
request is answered by the locally built commissioning document whatever the
delegate outcome, a successful delegate payload is returned unchanged, a
not-implemented outcome is recovered locally through the curtin cloud config
or the debconf fallback, and the unknown-operating-system and no-connection
failures propagate to the caller unchanged. -/
theorem compose_preseed_dispatch (deps : Deps) (env : Env)
    (delegate : PRESEED_TYPE → List Char → DelegateResult) (node : Node) (token : Token) :
    (compose_preseed deps env delegate PRESEED_TYPE.COMMISSIONING node token =
      Except.ok (compose_commissioning_preseed deps env node token node.rack_url)) ∧
    (∀ k, k ≠ PRESEED_TYPE.COMMISSIONING →
      (∀ payload, delegate k (get_metadata_url deps k node.rack_url) =
          DelegateResult.ok payload →
        compose_preseed deps env delegate k node token = Except.ok payload) ∧
      (delegate k (get_metadata_url deps k node.rack_url) =
          DelegateResult.notImplemented →
        compose_preseed deps env delegate k node token =
          Except.ok (if k = PRESEED_TYPE.CURTIN then
              compose_curtin_preseed deps env node token node.rack_url
            else compose_cloud_init_preseed deps env node token node.rack_url)) ∧
      (delegate k (get_metadata_url deps k node.rack_url) =
          DelegateResult.noSuchOperatingSystem →
        compose_preseed deps env delegate k node token =
          Except.error ComposeFailure.noSuchOperatingSystem) ∧
      (delegate k (get_metadata_url deps k node.rack_url) =
          DelegateResult.noConnectionsAvailable →
        compose_preseed deps env delegate k node token =
          Except.error ComposeFailure.noConnectionsAvailable)) := by
  refine ⟨rfl, ?_⟩
  intro k hk
  refine ⟨?_, ?_, ?_, ?_⟩
  · intro payload hp
    simp [compose_preseed, hk, hp]
  · intro hp
    simp only [compose_preseed, hk, hp, if_neg hk]
    by_cases hc : k = PRESEED_TYPE.CURTIN <;> simp [hc]
  · intro hp
    simp [compose_preseed, hk, hp]
  · intro hp
    simp [compose_preseed, hk, hp]

/-- Witness for C1: a curtin request whose site controller is unreachable
propagates the failure unchanged. -/
theorem compose_preseed_dispatch_witness :
    compose_preseed sampleDeps sampleEnv
      (fun _ _ => DelegateResult.noConnectionsAvailable)
      PRESEED_TYPE.CURTIN sampleNode sampleToken =
      Except.error ComposeFailure.noConnectionsAvailable :=
  ((compose_preseed_dispatch sampleDeps sampleEnv
    (fun _ _ => DelegateResult.noConnectionsAvailable) sampleNode sampleToken).2
    PRESEED_TYPE.CURTIN (by decide)).2.2.2 rfl

/-- Claim C3: the power-off decision of the commissioning composer is a pure
function of the machine status: disk erasing powers off with the one-week
timeout 604800, entering rescue mode does not power off, every other status
powers off with the one-hour timeout 3600, and every power off carries the
fixed sentinel-file guard condition. -/
theorem commissioning_poweroff_policy (deps : Deps) (env : Env) (node : Node)
    (token : Token) (base_url : List Char) :
    compose_commissioning_preseed deps env node token base_url =
      "#cloud-config\n".data ++
        deps.dump_cloud_config (commissioning_config deps env node token base_url) ∧
    (node.status = NODE_STATUS.DISK_ERASING →
      (commissioning_config deps env node token base_url).power_state =
        some ⟨"now".data, "poweroff".data, 604800,
          some ("test ! -e /tmp/block-poweroff".data)⟩) ∧
    (node.status = NODE_STATUS.ENTERING_RESCUE_MODE →
      (commissioning_config deps env node token base_url).power_state = none) ∧
    (node.status ≠ NODE_STATUS.DISK_ERASING →
      node.status ≠ NODE_STATUS.ENTERING_RESCUE_MODE →
      (commissioning_config deps env node token base_url).power_state =
        some ⟨"now".data, "poweroff".data, 3600,
          some ("test ! -e /tmp/block-poweroff".data)⟩) := by
  refine ⟨rfl, ?_, ?_, ?_⟩
  · intro h
    simp [commissioning_config, cloud_config, h]
  · intro h
    simp [commissioning_config, cloud_config, h]
  · intro h1 h2
    have hb : (node.status != NODE_STATUS.ENTERING_RESCUE_MODE) = true := by
      simpa using h2
    simp [commissioning_config, cloud_config, h1, hb]

/-- Witness for C3 at the three sample machine statuses. -/
theorem commissioning_poweroff_policy_witness :
    (commissioning_config sampleDeps sampleEnv sampleNodeErasing sampleToken
        ("b".data)).power_state =
      some ⟨"now".data, "poweroff".data, 604800,
        some ("test ! -e /tmp/block-poweroff".data)⟩ ∧
    (commissioning_config sampleDeps sampleEnv sampleNodeRescue sampleToken
        ("b".data)).power_state = none ∧
    (commissioning_config sampleDeps sampleEnv sampleNode sampleToken
        ("b".data)).power_state =
      some ⟨"now".data, "poweroff".data, 3600,
        some ("test ! -e /tmp/block-poweroff".data)⟩ :=
  ⟨(commissioning_poweroff_policy sampleDeps sampleEnv sampleNodeErasing sampleToken
      ("b".data)).2.1 rfl,
   (commissioning_poweroff_policy sampleDeps sampleEnv sampleNodeRescue sampleToken
      ("b".data)).2.2.1 rfl,
   (commissioning_poweroff_policy sampleDeps sampleEnv sampleNode sampleToken
      ("b".data)).2.2.2 (by decide) (by decide)⟩

/-- Claim C4: the commissioning document always carries the webhook reporting block
with the three credential fields, and the curtin fallback document carries no
power state key. -/
theorem reporting_block_and_curtin_no_poweroff (deps : Deps) (env : Env) (node : Node)
    (token : Token) (base_url : List Char) :
    compose_commissioning_preseed deps env node token base_url =
      "#cloud-config\n".data ++
        deps.dump_cloud_config (commissioning_config deps env node token base_url) ∧
    (commissioning_config deps env node token base_url).reporting =
      ⟨"webhook".data, deps.metadata_status_url node.system_id base_url,
        token.consumer_key, token.key, token.secret⟩ ∧
    compose_curtin_preseed deps env node token base_url =
      "#cloud-config\n".data ++
        deps.dump_cloud_config (curtin_config deps env node token base_url) ∧
    (curtin_config deps env node token base_url).power_state = none :=
  ⟨rfl, rfl, rfl, rfl⟩

/-- Claim C5: proxy resolution returns nothing when the proxy flag is off; with the
flag on it returns a configured value that is nonempty and not all whitespace
unchanged, and otherwise the synthesized URL on port 8000 of the boot rack
host of the machine. -/
theorem get_apt_proxy_for_node_spec (env : Env) (node : Node) :
    (env.enable_http_proxy = false → get_apt_proxy_for_node env node = none) ∧
    (∀ p, env.enable_http_proxy = true → env.http_proxy = some p → p ≠ [] →
      ¬ (∀ c ∈ p, isPySpace c = true) →
      get_apt_proxy_for_node env node = some p) ∧
    (env.enable_http_proxy = true →
      (env.http_proxy = none ∨ env.http_proxy = some [] ∨
        (∃ p, env.http_proxy = some p ∧ ∀ c ∈ p, isPySpace c = true)) →
      get_apt_proxy_for_node env node =
        some ("http://".data ++ node.rack_host ++ ":8000/".data)) := by
  refine ⟨?_, ?_, ?_⟩
  · intro h
    simp [get_apt_proxy_for_node, h]
  · intro p hen hp hne hns
    have hlen : 0 < p.length := List.length_pos.mpr hne
    have hall : p.all isPySpace = false := by
      rw [Bool.eq_false_iff]
      intro hcontra
      exact hns (fun c hc => List.all_eq_true.mp hcontra c hc)
    simp [get_apt_proxy_for_node, hen, hp, pyIsSpace, hall, hlen, hne]
  · intro hen hcase
    rcases hcase with h | h | ⟨p, hp, hall⟩
    · simp [get_apt_proxy_for_node, hen, h]
    · simp [get_apt_proxy_for_node, hen, h, pyIsSpace]
    · by_cases hnil : p = []
      · subst hnil
        simp [get_apt_proxy_for_node, hen, hp, pyIsSpace]
      · have ht : p.all isPySpace = true := List.all_eq_true.mpr (fun c hc => hall c hc)
        simp [get_apt_proxy_for_node, hen, hp, pyIsSpace, hnil, ht]

/-- Witness for C5 at three concrete configurations: flag off, explicit value,
blank value. -/
theorem get_apt_proxy_for_node_spec_witness :
    get_apt_proxy_for_node ⟨false, some ("x".data), fun _ => sampleArchive, fun _ => [],
        [], []⟩ sampleNode = none ∧
    get_apt_proxy_for_node sampleEnv sampleNode = some ("http://proxy.example/".data) ∧
    get_apt_proxy_for_node ⟨true, some ("  ".data), fun _ => sampleArchive, fun _ => [],
        [], []⟩ sampleNode = some ("http://rack.example:8000/".data) :=
  ⟨(get_apt_proxy_for_node_spec _ sampleNode).1 rfl,
   (get_apt_proxy_for_node_spec sampleEnv sampleNode).2.1 ("http://proxy.example/".data)
      rfl rfl (by decide) (by decide),
   ((get_apt_proxy_for_node_spec _ sampleNode).2.2 rfl
      (Or.inr (Or.inr ⟨"  ".data, rfl, by decide⟩))).trans (by decide)⟩

/-- Claim C9: the debconf escape doubles every backslash first and replaces every
newline by the two-character sequence backslash n second, acting
character-wise with exactly those two substitutions and altering no other
character; the concrete document with one literal backslash and one embedded
newline encodes accordingly. -/
theorem debconfEscape_spec :
    (∀ s, debconfEscape s = replaceNewline (replaceBackslash s)) ∧
    (∀ s, debconfEscape s =
      (s.map (fun c =>
        if c = '\\' then ['\\', '\\']
        else if c = '\n' then ['\\', 'n'] else [c])).flatten) ∧
    debconfEscape ("a\\b\nc".data) = ("a\\\\b\\nc".data) := by
  refine ⟨fun s => rfl, ?_, by decide⟩
  intro s
  induction s with
  | nil => rfl
  | cons c t ih =>
      have hstep : debconfEscape (c :: t) =
          replaceNewline (escapeBackslashChar c) ++ debconfEscape t := by
        rw [debconfEscape, replaceBackslash, List.map_cons, List.flatten_cons,
          replaceNewline, List.map_append, List.flatten_append]
        rfl
      rw [hstep, ih, List.map_cons, List.flatten_cons]
      congr 1
      by_cases h1 : c = '\\'
      · subst h1; decide
      · by_cases h2 : c = '\n'
        · subst h2; decide
        · rw [if_neg h1, if_neg h2, escapeBackslashChar, if_neg h1]
          simp [replaceNewline, escapeNewlineChar, h2]

/-- Claim C2 as amended: the debconf fallback document is exactly the four selection
lines in order (datasource selection fixed to MAAS, metadata URL, URL-encoded
credentials, escaped serialized local config), and the serialized
configuration structure carries the system info block, the optional proxy, the
webhook reporting block with the three credentials, and the repository block
whose preserve sources flag is false, while a separate legacy top-level key
apt_preserve_sources_list is set true instead. -/
theorem cloud_init_preseed_lines (deps : Deps) (env : Env) (node : Node) (token : Token)
    (base_url : List Char) :
    compose_cloud_init_preseed deps env node token base_url =
      preseedLine "datasources".data "multiselect".data "MAAS".data ++ '\n' ::
        (preseedLine "maas-metadata-url".data "string".data (deps.metadata_url base_url) ++
          '\n' ::
          (preseedLine "maas-metadata-credentials".data "string".data
              (deps.urlencode_credentials token) ++
            '\n' ::
            preseedLine "local-cloud-config".data "string".data
              (debconfEscape
                (deps.dump_cloud_init (cloud_init_config deps env node token base_url))))) ∧
    (cloud_init_config deps env node token base_url).system_info = get_system_info env ∧
    (cloud_init_config deps env node token base_url).apt_proxy =
      optTruthy (get_apt_proxy_for_node env node) ∧
    (cloud_init_config deps env node token base_url).reporting =
      ⟨"webhook".data, deps.metadata_status_url node.system_id base_url,
        token.consumer_key, token.key, token.secret⟩ ∧
    (cloud_init_config deps env node token base_url).apt =
      get_archive_config env node false ∧
    (get_archive_config env node false).preserve_sources_list = false ∧
    (cloud_init_config deps env node token base_url).apt_preserve_sources_list = true := by
  refine ⟨?_, rfl, rfl, rfl, rfl, rfl, rfl⟩
  rw [compose_cloud_init_preseed]
  simp [List.intercalate, List.intersperse]

/-- Counterexample to claim C2 as stated: at a concrete input the configuration structure
serialized into the local config line carries its repository-block preserve
sources flag as false, not true as the claim states. -/
theorem cloud_init_preserve_flag_false :
    (cloud_init_config sampleDeps sampleEnv sampleNode sampleToken
        ("http://rack.example:5240/".data)).apt.preserve_sources_list = false := by
  rfl

/-- Claim C6 as amended: a generic repository with no distributions and no components
yields exactly the single line deb url series main, and with two listed
distributions it yields one deb line per distribution, each line terminated by
a newline so the entry ends with a trailing newline, both lines sharing the
same component string. -/
theorem repoSourceUrl_generic (node : Node) (repo : Repo)
    (hppa : (("ppa:".data).isPrefixOf repo.url) = false)
    (hhost : listContains ("ppa.launchpad.net".data) repo.url = false) :
    (repo.distributions = [] → repo.components = [] →
      repoSourceUrl node repo =
        "deb ".data ++ repo.url ++ [' '] ++ node.distro_series ++ " main".data) ∧
    (∀ a b, repo.distributions = [a, b] →
      repoSourceUrl node repo =
        ("deb ".data ++ repo.url ++ [' '] ++ a ++ [' '] ++ componentsOf repo ++ ['\n']) ++
          ("deb ".data ++ repo.url ++ [' '] ++ b ++ [' '] ++ componentsOf repo ++
            ['\n'])) := by
  constructor
  · intro hdist hcomp
    rw [repoSourceUrl, if_neg (by simp [hppa]), if_neg (by simp [hhost])]
    have hc : componentsOf repo = "main".data := by
      rw [componentsOf, hcomp]
      decide
    simp [hdist, hc]
  · intro a b hdist
    rw [repoSourceUrl, if_neg (by simp [hppa]), if_neg (by simp [hhost])]
    simp [hdist, List.foldl]

/-- Counterexample to claim C6 as stated: with two distributions the source entry carries a
trailing newline, so it is not the plain newline-join of its two deb lines. -/
theorem repoSourceUrl_trailing_newline :
    repoSourceUrl sampleNode sampleRepoTwoDists =
      ("deb http://x a main\ndeb http://x b main\n").data ∧
    repoSourceUrl sampleNode sampleRepoTwoDists ≠
      List.intercalate ['\n']
        [("deb http://x a main").data, ("deb http://x b main").data] :=
  ⟨by decide, by decide⟩

/-- Witness for C6 at a concrete generic repository with neither
distributions nor components. -/
theorem repoSourceUrl_generic_witness :
    repoSourceUrl sampleNode sampleRepo =
      "deb http://mirror.example/debian xenial main".data :=
  ((repoSourceUrl_generic sampleNode sampleRepo (by decide) (by decide)).1 rfl rfl).trans
    (by decide)
